import Mathlib

/-!
Verification development for the Engine3 portal-rendering core.

Numbers: the Rust code computes in `f32`; this development embeds the same
formulas over `ℚ` (exact rational arithmetic), keeping every constant
(`1e-5`, `1e-10`, `1e-4`, `1e-3`, `1e-6`) as the corresponding rational.

`ConvexPolygon` (geometry.rs) is a fixed array of `MAX_VERTICES` points plus a
live count; the only observable state (via `vertices()`, `count()`, `area()`)
is the prefix of length `count`, which we model as a plain list.
-/

namespace Engine3

/-- src/geometry.rs: `pub const MAX_VERTICES: usize = 16`. -/
def MAX_VERTICES : Nat := 16

/-- src/geometry.rs: `Point2 { x: f32, y: f32 }`. -/
structure Point2 where
  x : ℚ
  y : ℚ
  deriving DecidableEq, Repr

/-- src/geometry.rs: `ConvexPolygon` = `[Point2; MAX_VERTICES]` + `count`;
modelled by its observable vertex list (the first `count` array slots). -/
structure ConvexPolygon where
  verts : List Point2
  deriving DecidableEq, Repr

namespace ConvexPolygon

/-- src/geometry.rs `count()`. -/
def count (p : ConvexPolygon) : Nat := p.verts.length

/-- src/geometry.rs `vertices()` = `&vertices[..count]`. -/
def vertices (p : ConvexPolygon) : List Point2 := p.verts

/-- src/geometry.rs `from_points`: copies `min(len, MAX_VERTICES)` points. -/
def from_points (points : List Point2) : ConvexPolygon :=
  ⟨points.take MAX_VERTICES⟩

/-- src/geometry.rs `copy_vertices_from_slice`: copies `min(len, MAX_VERTICES)`
points and sets `count` to that number (the receiver's old contents beyond the
copied prefix are unobservable). -/
def copy_vertices_from_slice (_p : ConvexPolygon) (slice : List Point2) : ConvexPolygon :=
  ⟨slice.take MAX_VERTICES⟩

/-- src/geometry.rs `set_count`: `self.count = count.min(MAX_VERTICES)`,
vertices untouched. Observably this truncates the live prefix (the clipper only
ever calls it with `count = 0`; raising the count would expose stale array
slots, which never happens in this codebase). -/
def set_count (p : ConvexPolygon) (c : Nat) : ConvexPolygon :=
  ⟨p.verts.take (min c MAX_VERTICES)⟩

/-- src/geometry.rs `area()`: shoelace sum, `abs / 2`, `0` below 3 vertices. -/
def area (p : ConvexPolygon) : ℚ :=
  if p.count < 3 then 0
  else
    |(List.range p.count).foldl (fun acc i =>
      let vi := p.verts.getD i ⟨0, 0⟩
      let vj := p.verts.getD ((i + 1) % p.count) ⟨0, 0⟩
      acc + vi.x * vj.y - vj.x * vi.y) 0| / 2

end ConvexPolygon

/-! ## src/intersection.rs — Sutherland–Hodgman convex clipper -/

namespace ConvexIntersection

/-- src/intersection.rs `is_inside`: half-plane test
`cross(edge, point - edge_start) >= -1e-5` (Prop form of the `bool`
comparison). -/
def is_inside (point edge_start edge_end : Point2) : Prop :=
  ((edge_end.x - edge_start.x) * (point.y - edge_start.y) -
   (edge_end.y - edge_start.y) * (point.x - edge_start.x)) ≥ -(1 / 100000 : ℚ)

instance (point edge_start edge_end : Point2) : Decidable (is_inside point edge_start edge_end) := by
  unfold is_inside
  infer_instance

/-- src/intersection.rs `line_intersection`: 2D line-line intersection,
`None` when `|denominator| < 1e-10`. -/
def line_intersection (p1 p2 clip_edge_p1 clip_edge_p2 : Point2) : Option Point2 :=
  let dx_line := p2.x - p1.x
  let dy_line := p2.y - p1.y
  let dx_clip := clip_edge_p2.x - clip_edge_p1.x
  let dy_clip := clip_edge_p2.y - clip_edge_p1.y
  let denominator := dy_clip * dx_line - dx_clip * dy_line
  if |denominator| < (1 / 10000000000 : ℚ) then none
  else
    let t := (dx_clip * (p1.y - clip_edge_p1.y) - dy_clip * (p1.x - clip_edge_p1.x)) / denominator
    some ⟨p1.x + t * dx_line, p1.y + t * dy_line⟩

/-- src/intersection.rs `clip_polygon_by_edge` lines 51-54 etc.: emit a vertex
into the output buffer if it is not full; `none` signals the `break` taken when
`output_count` has reached `MAX_VERTICES`. -/
def tryEmit (out : List Point2) (v : Point2) : Option (List Point2) :=
  if out.length < MAX_VERTICES then some (out ++ [v]) else none

/-- One iteration of the `for &current_vertex in subject_vertices` loop of
`clip_polygon_by_edge`: the four inside/outside cases on
`(prev_vertex, current_vertex)`. Returns the updated buffer and `true` to
continue, or the buffer so far and `false` for the `break` taken when the
buffer is full. -/
def clip_step (cs ce prev cur : Point2) (out : List Point2) : List Point2 × Bool :=
  if is_inside prev cs ce then
    if is_inside cur cs ce then
      match tryEmit out cur with
      | some out2 => (out2, true)
      | none => (out, false)
    else
      match line_intersection prev cur cs ce with
      | some ipt =>
        match tryEmit out ipt with
        | some out2 => (out2, true)
        | none => (out, false)
      | none => (out, true)
  else
    if is_inside cur cs ce then
      match line_intersection prev cur cs ce with
      | some ipt =>
        match tryEmit out ipt with
        | some out2 =>
          match tryEmit out2 cur with
          | some out3 => (out3, true)
          | none => (out2, false)
        | none => (out, false)
      | none =>
        match tryEmit out cur with
        | some out2 => (out2, true)
        | none => (out, false)
    else (out, true)

/-- The vertex loop of `clip_polygon_by_edge`, carrying `prev_vertex` and the
output buffer; a `false` from `clip_step` reproduces the `break`. -/
def clip_edge_loop (cs ce : Point2) : Point2 → List Point2 → List Point2 → List Point2
  | _, [], out => out
  | prev, cur :: rest, out =>
    match clip_step cs ce prev cur out with
    | (out2, true) => clip_edge_loop cs ce cur rest out2
    | (out2, false) => out2

/-- src/intersection.rs `clip_polygon_by_edge`: returns the clipped vertex
list (the Rust function fills `output_buffer` and returns `output_count`). -/
def clip_polygon_by_edge (subject_vertices : List Point2) (clip_edge_start clip_edge_end : Point2) :
    List Point2 :=
  if subject_vertices.isEmpty then []
  else clip_edge_loop clip_edge_start clip_edge_end
    (subject_vertices.getLastD ⟨0, 0⟩) subject_vertices []

/-- The clip edges `(vertices[i], vertices[(i+1) % count])` of
`find_intersection_into`'s `for i in 0..poly2.count()` loop. -/
def cyclic_edges (l : List Point2) : List (Point2 × Point2) :=
  (List.range l.length).map fun i =>
    (l.getD i ⟨0, 0⟩, l.getD ((i + 1) % l.length) ⟨0, 0⟩)

/-- The per-clip-edge loop of `find_intersection_into` (lines 107-140): break
on empty subject, skip the edge when every subject vertex is already inside
(`all_inside_this_edge`), otherwise clip into the other ping-pong buffer. -/
def clip_edges_fold : List (Point2 × Point2) → List Point2 → List Point2
  | [], subject => subject
  | (cs, ce) :: rest, subject =>
    if subject.isEmpty then subject
    else if ∀ p ∈ subject, is_inside p cs ce then clip_edges_fold rest subject
    else clip_edges_fold rest (clip_polygon_by_edge subject cs ce)

/-- src/intersection.rs `find_intersection_into`, as a function returning the
result polygon (the Rust code writes it into `result_poly`; an empty final
buffer is `result_poly.set_count(0)`, observably the empty polygon). -/
def find_intersection_into (poly1 poly2 : ConvexPolygon) : ConvexPolygon :=
  if poly1.count = 0 then ⟨[]⟩
  else if poly2.count < 3 then ⟨poly1.verts.take MAX_VERTICES⟩
  else if (clip_edges_fold (cyclic_edges poly2.verts) poly1.verts).isEmpty then ⟨[]⟩
  else ⟨(clip_edges_fold (cyclic_edges poly2.verts) poly1.verts).take MAX_VERTICES⟩

end ConvexIntersection

/-! ## src/engine_lib/scene_types.rs — scene data model

The engine_lib modules compute with `glam` `Vec3`/`Mat4` (f32); embedded here
over `ℚ`, with `Mat4` as a 4×4 rational matrix. -/

abbrev InstanceId := Nat
abbrev BlueprintId := Nat
abbrev PortalId := Nat
abbrev SideIndex := Nat

/-- glam `Vec3` (f32 triple), over `ℚ`. -/
structure Vec3 where
  x : ℚ
  y : ℚ
  z : ℚ
  deriving DecidableEq, Repr

namespace Vec3

def dot (a b : Vec3) : ℚ := a.x * b.x + a.y * b.y + a.z * b.z

/-- glam `length_squared`. -/
def length_squared (a : Vec3) : ℚ := a.dot a

instance : Add Vec3 := ⟨fun a b => ⟨a.x + b.x, a.y + b.y, a.z + b.z⟩⟩
instance : Sub Vec3 := ⟨fun a b => ⟨a.x - b.x, a.y - b.y, a.z - b.z⟩⟩
instance : Neg Vec3 := ⟨fun a => ⟨-a.x, -a.y, -a.z⟩⟩
instance : SMul ℚ Vec3 := ⟨fun k a => ⟨k * a.x, k * a.y, k * a.z⟩⟩
instance : Zero Vec3 := ⟨⟨0, 0, 0⟩⟩

end Vec3

/-- glam `Mat4` as a 4×4 rational matrix (row i, column j); glam stores
columns, but the linear map it denotes is this matrix, with the translation in
column 3. -/
abbrev Mat4 := Matrix (Fin 4) (Fin 4) ℚ

namespace Mat4

/-- glam `Mat4::from_translation`. -/
def from_translation (t : Vec3) : Mat4 :=
  !![1, 0, 0, t.x; 0, 1, 0, t.y; 0, 0, 1, t.z; 0, 0, 0, 1]

/-- glam `m.w_axis.xyz()`: the translation column. -/
def w_axis_xyz (m : Mat4) : Vec3 := ⟨m 0 3, m 1 3, m 2 3⟩

/-- glam `Mat4::transform_vector3`: apply the upper-left 3×3 part (w = 0). -/
def transform_vector3 (m : Mat4) (v : Vec3) : Vec3 :=
  ⟨m 0 0 * v.x + m 0 1 * v.y + m 0 2 * v.z,
   m 1 0 * v.x + m 1 1 * v.y + m 1 2 * v.z,
   m 2 0 * v.x + m 2 1 * v.y + m 2 2 * v.z⟩

/-- glam `Mat4::inverse` computes the cofactor (adjugate over determinant)
inverse, which over `ℚ` is the nonsingular matrix inverse. -/
def inverse (m : Mat4) : Mat4 := (m.det)⁻¹ • m.adjugate

/-- Keep the upper-left 3×3 block of `m`, replace the translation column by
`t` and the bottom row by `(0,0,0,1)`. This is
`Mat4::from_scale_rotation_translation(scale, rot_quat, t)` when
`(scale, rot_quat, _)` came from `m.to_scale_rotation_translation()` for a
rigid `m` (unit scale, `from_quat(rot_quat)` reproducing `m`'s 3×3 block). -/
def with_translation (m : Mat4) (t : Vec3) : Mat4 :=
  !![m 0 0, m 0 1, m 0 2, t.x;
     m 1 0, m 1 1, m 1 2, t.y;
     m 2 0, m 2 1, m 2 2, t.z;
     0, 0, 0, 1]

end Mat4

/-- src/engine_lib/scene_types.rs `SideHandlerTypeId`. -/
inductive SideHandlerTypeId where
  | StandardWall
  | StandardPortal
  | Mirror
  | CameraDisplay
  | NonEuclideanPortal
  | TransparentWall
  deriving DecidableEq, Repr

/-- src/engine_lib/scene_types.rs `HandlerConfig` (f32 fields over `ℚ`,
`[f32; 4]` as a 4-tuple). -/
inductive HandlerConfig where
  | StandardWall (color : ℚ × ℚ × ℚ × ℚ) (texture_id : Option String)
  | StandardPortal (target_instance_id : InstanceId) (target_portal_id : PortalId)
  | Mirror (recursion_limit : Nat) (surface_reflectivity : ℚ)
  | CameraDisplay (source_camera_id : String) (refresh_rate : ℚ)
  | NonEuclideanPortal (target_instance_id : InstanceId) (target_portal_id : PortalId)
      (transform_params : String)
  | TransparentWall (tint : ℚ × ℚ × ℚ × ℚ) (opacity : ℚ) (ior : ℚ)
  | None
  deriving DecidableEq, Repr

/-- src/engine_lib/scene_types.rs `BlueprintSide`. -/
structure BlueprintSide where
  vertex_indices : List Nat
  local_normal : Vec3
  handler_type : SideHandlerTypeId
  default_handler_config : HandlerConfig
  local_portal_id : Option PortalId
  deriving DecidableEq, Repr

/-- src/engine_lib/scene_types.rs `HullBlueprint`. -/
structure HullBlueprint where
  id : BlueprintId
  name : String
  local_vertices : List Vec3
  sides : List BlueprintSide
  deriving DecidableEq, Repr

/-- src/engine_lib/scene_types.rs `PortalConnectionInfo`. -/
structure PortalConnectionInfo where
  target_instance_id : InstanceId
  target_portal_id : PortalId
  deriving DecidableEq, Repr

/-- src/engine_lib/scene_types.rs `HullInstance`; the two `HashMap`s are
modelled as lookup functions (`HashMap::get`). -/
structure HullInstance where
  id : InstanceId
  name : String
  blueprint_id : BlueprintId
  initial_transform : Option Mat4
  portal_connections : PortalId → Option PortalConnectionInfo
  instance_side_handler_configs : SideIndex → Option HandlerConfig

/-- src/engine_lib/scene_types.rs `Scene`; the id-keyed `HashMap`s are
modelled as lookup functions. -/
structure Scene where
  blueprints : BlueprintId → Option HullBlueprint
  instances : InstanceId → Option HullInstance
  active_camera_instance_id : InstanceId
  active_camera_local_transform : Mat4

/-- src/engine_lib/scene_types.rs `TraversalState`. -/
structure TraversalState where
  current_instance_id : InstanceId
  accumulated_transform : Mat4
  screen_space_clip_polygon : ConvexPolygon
  recursion_depth : Nat

/-- The type `BoundaryCheckResult` is referenced by src/engine_lib/scene_logic.rs but
its declaration is not among the source files; every constructor and field
below is pinned by its construction and matching in scene_logic.rs (variants
`Inside`, `Collision { collided_side_index, collision_point }`,
`Traverse { crossed_side_index, target_instance_id, target_portal_id }`). -/
inductive BoundaryCheckResult where
  | Inside
  | Collision (collided_side_index : SideIndex) (collision_point : Vec3)
  | Traverse (crossed_side_index : SideIndex) (target_instance_id : InstanceId)
      (target_portal_id : PortalId)
  deriving DecidableEq, Repr

/-! ## src/engine_lib/scene_logic.rs — boundary resolution -/

/-- scene_logic.rs `COLLISION_EPSILON = 1e-4`. -/
def COLLISION_EPSILON : ℚ := 1 / 10000

/-- scene_logic.rs lines 20-24: plane through
`local_vertices[vertex_indices[0]]` with the side's `local_normal`;
`signed_distance = normal.dot(pos) + d_plane_constant`. (The Rust indexing
panics on an out-of-range vertex index; modelled totally with a zero
default.) -/
def signed_distance_to_side (pos : Vec3) (bp : HullBlueprint) (side : BlueprintSide) : ℚ :=
  let point_on_plane := bp.local_vertices.getD (side.vertex_indices.getD 0 0) 0
  let normal := side.local_normal
  normal.dot pos + (-(normal.dot point_on_plane))

/-- scene_logic.rs lines 27-30: instance-level override, else the blueprint
side's default config. -/
def effective_config (inst : HullInstance) (side_idx : SideIndex) (side : BlueprintSide) :
    HandlerConfig :=
  (inst.instance_side_handler_configs side_idx).getD side.default_handler_config

/-- scene_logic.rs lines 32-53: the result produced for a violated side from
its effective handler config. -/
def side_boundary_result (pos : Vec3) (side_idx : SideIndex) (side : BlueprintSide)
    (cfg : HandlerConfig) : BoundaryCheckResult :=
  match cfg with
  | .StandardPortal target_instance_id target_portal_id =>
    if side.local_portal_id.isSome then
      .Traverse side_idx target_instance_id target_portal_id
    else
      .Collision side_idx pos
  | _ => .Collision side_idx pos

/-- The `for (side_idx, blueprint_side) in sides.iter().enumerate()` loop of
`check_camera_hull_boundary`: skip sides with empty `vertex_indices`, return
at the first side whose signed distance is below `-COLLISION_EPSILON`. -/
def check_loop (pos : Vec3) (bp : HullBlueprint) (inst : HullInstance) :
    Nat → List BlueprintSide → BoundaryCheckResult
  | _, [] => .Inside
  | i, side :: rest =>
    if side.vertex_indices = [] then check_loop pos bp inst (i + 1) rest
    else if signed_distance_to_side pos bp side < -COLLISION_EPSILON then
      side_boundary_result pos i side (effective_config inst i side)
    else check_loop pos bp inst (i + 1) rest

/-- scene_logic.rs `check_camera_hull_boundary`. -/
def check_camera_hull_boundary (new_camera_pos_in_blueprint_space : Vec3)
    (current_hull_blueprint : HullBlueprint) (current_hull_instance : HullInstance) :
    BoundaryCheckResult :=
  check_loop new_camera_pos_in_blueprint_space current_hull_blueprint current_hull_instance
    0 current_hull_blueprint.sides

/-! ## src/engine_lib/side_handler.rs — portal alignment and portal handler -/

/-- src/demo_scene.rs portal id constants 0..5
(FRONT, BACK, LEFT, RIGHT, TOP, BOTTOM). -/
def PORTAL_ID_FRONT : PortalId := 0
def PORTAL_ID_BACK : PortalId := 1
def PORTAL_ID_LEFT : PortalId := 2
def PORTAL_ID_RIGHT : PortalId := 3
def PORTAL_ID_TOP : PortalId := 4
def PORTAL_ID_BOTTOM : PortalId := 5

/-- side_handler.rs `get_portal_alignment_transform`: `room_half_size = 1.5`,
fixed translations keyed by (source, target) portal-id pairs
(0 = FRONT, 1 = BACK, 2 = LEFT, 3 = RIGHT, 4 = TOP, 5 = BOTTOM),
identity for any other pair. -/
def get_portal_alignment_transform (source_portal_id_on_current_bp target_portal_id_on_target_bp :
    PortalId) : Mat4 :=
  match source_portal_id_on_current_bp, target_portal_id_on_target_bp with
  | 0, 1 => Mat4.from_translation ⟨0, 0, 3⟩
  | 1, 0 => Mat4.from_translation ⟨0, 0, -3⟩
  | 3, 2 => Mat4.from_translation ⟨3, 0, 0⟩
  | 2, 3 => Mat4.from_translation ⟨-3, 0, 0⟩
  | 4, 5 => Mat4.from_translation ⟨0, 3, 0⟩
  | 5, 4 => Mat4.from_translation ⟨0, -3, 0⟩
  | _, _ => 1

/-- scene_logic.rs `PUSH_OUT_DISTANCE = 1e-3`. -/
def PUSH_OUT_DISTANCE : ℚ := 1 / 1000

/-- scene_logic.rs `TRAVERSAL_PUSH_DISTANCE = 1e-3`. -/
def TRAVERSAL_PUSH_DISTANCE : ℚ := 1 / 1000

/-- scene_logic.rs lines 158-168: decompose the new pose, push its translation
by the rotation applied to `(0, 0, -TRAVERSAL_PUSH_DISTANCE)`, rebuild. For a
rigid pose (rotation + translation) glam's `to_scale_rotation_translation`
yields unit scale and a quaternion whose `from_quat` matrix is exactly the
pose's 3×3 block, so the decompose/rebuild pair amounts to keeping the matrix
and offsetting the translation column by (3×3 block)·(0,0,-1e-3). -/
def apply_traversal_push (m : Mat4) : Mat4 :=
  let world_ish_push_offset := m.transform_vector3 ⟨0, 0, -TRAVERSAL_PUSH_DISTANCE⟩
  m.with_translation (m.w_axis_xyz + world_ish_push_offset)

/-- scene_logic.rs `update_camera_in_scene` (`_dt` unused), as a function
returning the updated scene; `none` models the `expect`/indexing panics
(missing instance or blueprint, out-of-range side index, `Traverse` from a
side with no `local_portal_id`). -/
def update_camera_in_scene (scene : Scene) (potential_new_local_pos : Vec3)
    (new_rotation_matrix : Mat4) : Option Scene := do
  let current_instance ← scene.instances scene.active_camera_instance_id
  let current_hull_blueprint ← scene.blueprints current_instance.blueprint_id
  match check_camera_hull_boundary potential_new_local_pos current_hull_blueprint
      current_instance with
  | .Inside =>
    some { scene with active_camera_local_transform :=
            Mat4.from_translation potential_new_local_pos * new_rotation_matrix }
  | .Collision collided_side_index _ => do
    let side ← current_hull_blueprint.sides.get? collided_side_index
    let old_position := scene.active_camera_local_transform.w_axis_xyz
    let collided_side_normal := side.local_normal
    let signed_distance_at_potential_pos :=
      signed_distance_to_side potential_new_local_pos current_hull_blueprint side
    let corrected_position :=
      if collided_side_normal.length_squared > 1 / 1000000 then
        potential_new_local_pos +
          ((PUSH_OUT_DISTANCE - signed_distance_at_potential_pos) /
            collided_side_normal.length_squared) • collided_side_normal
      else old_position
    some { scene with active_camera_local_transform :=
            Mat4.from_translation corrected_position * new_rotation_matrix }
  | .Traverse crossed_side_index target_instance_id target_portal_id => do
    let side ← current_hull_blueprint.sides.get? crossed_side_index
    let source_portal_id_on_current_bp ← side.local_portal_id
    let portal_alignment_transform_target_to_current :=
      get_portal_alignment_transform source_portal_id_on_current_bp target_portal_id
    let camera_pose_if_crossed_in_old_bp :=
      Mat4.from_translation potential_new_local_pos * new_rotation_matrix
    let new_camera_pose_in_new_bp :=
      apply_traversal_push
        (portal_alignment_transform_target_to_current.inverse * camera_pose_if_crossed_in_old_bp)
    some { scene with
            active_camera_instance_id := target_instance_id,
            active_camera_local_transform := new_camera_pose_in_new_bp }

/-! ## src/engine_lib/side_handler.rs — portal handler and traversal queue -/

/-- side_handler.rs `MAX_PORTAL_RECURSION_DEPTH = 10`. -/
def MAX_PORTAL_RECURSION_DEPTH : Nat := 10

/-- side_handler.rs `HandlerContext`, restricted to the fields the portal
handler reads (the frame vertex/index buffers, camera and screen sizes feed
only the wall handler's output). `cull_test_passes` stands for the outcome of
the floating-point back-face culling test of lines 99-137 (it normalizes
transformed normals with `normalize_or_zero`, a square root, so it is not
rational); it is taken as an input because no claim depends on its value. -/
structure HandlerContext where
  scene : Scene
  current_instance : HullInstance
  blueprint_side : BlueprintSide
  side_config : HandlerConfig
  transform_to_camera_host_hull : Mat4
  camera_view_from_host_hull : Mat4
  visible_screen_polygon : ConvexPolygon
  current_recursion_depth : Nat
  cull_test_passes : Bool

/-- side_handler.rs `StandardPortalHandler::process_render`, returning the
`TraversalState` pushed onto `ctx.traversal_queue` (or `none` when any guard
returns early; `none` also models the `expect` panic on a portal side with no
`local_portal_id`). Guard order as in the source: non-portal config, empty
`vertex_indices`, blueprint lookup, vertex-index range check, culling,
recursion depth, target-instance existence. -/
def process_render (ctx : HandlerContext) : Option TraversalState :=
  match ctx.side_config with
  | .StandardPortal target_instance_id_from_config target_portal_id_on_target_bp_from_config =>
    if ctx.blueprint_side.vertex_indices = [] then none
    else match ctx.scene.blueprints ctx.current_instance.blueprint_id with
      | Option.none => none
      | Option.some blueprint =>
        if ctx.blueprint_side.vertex_indices.getD 0 0 < blueprint.local_vertices.length then
          if !ctx.cull_test_passes then none
          else if ctx.current_recursion_depth ≥ MAX_PORTAL_RECURSION_DEPTH then none
          else if (ctx.scene.instances target_instance_id_from_config).isNone then none
          else
            match ctx.blueprint_side.local_portal_id with
            | Option.none => none
            | Option.some src_portal_id =>
              some { current_instance_id := target_instance_id_from_config,
                     accumulated_transform := ctx.transform_to_camera_host_hull *
                       get_portal_alignment_transform src_portal_id
                         target_portal_id_on_target_bp_from_config,
                     screen_space_clip_polygon := ctx.visible_screen_polygon,
                     recursion_depth := ctx.current_recursion_depth + 1 }
        else none
  | _ => none

/-- Modelled from the spec: the per-frame traversal driver (the queue
initialized with one state and the pop/dispatch loop) is not among the source
files — only the handlers are. Spec §4.2: "initialize a queue with one
TraversalState at the camera's host instance, identity accumulated transform,
and a full-viewport clip polygon, recursion depth 0". -/
def initial_traversal_state (host : InstanceId) (viewport : ConvexPolygon) : TraversalState :=
  { current_instance_id := host,
    accumulated_transform := 1,
    screen_space_clip_polygon := viewport,
    recursion_depth := 0 }

/-- Modelled from the spec: one iteration of the driver loop — "While the
queue is non-empty, pop a state ... for every blueprint side ... dispatch to
the handler" (spec §4.2). Popping the front state may enqueue, for each side,
whatever the portal handler produces at the popped state's recursion depth
(the wall handler never enqueues). -/
inductive QueueStep : List TraversalState → List TraversalState → Prop where
  | pop (s : TraversalState) (q enq : List TraversalState)
      (henq : ∀ t ∈ enq, ∃ ctx : HandlerContext,
        ctx.current_recursion_depth = s.recursion_depth ∧ process_render ctx = some t) :
      QueueStep (s :: q) (q ++ enq)

/-- Modelled from the spec: the queue contents reachable during one frame's
traversal, starting from the single depth-0 state. -/
inductive QueueReachable (host : InstanceId) (viewport : ConvexPolygon) :
    List TraversalState → Prop where
  | init : QueueReachable host viewport [initial_traversal_state host viewport]
  | step {q q' : List TraversalState} : QueueReachable host viewport q → QueueStep q q' →
      QueueReachable host viewport q'

/-! ## src/engine_lib/camera.rs — perspective projection -/

/-- engine_lib `Point3` has the same (x, y, z) f32 shape as glam `Vec3`;
shared here. -/
abbrev Point3 := Vec3

/-- src/engine_lib/camera.rs `Camera` (projection parameters). -/
structure Camera where
  fov_y_rad : ℚ
  znear : ℚ
  zfar : ℚ
  deriving DecidableEq, Repr

/-- src/engine_lib/camera.rs `project_camera_space_to_screen_direct`.
`tanQ` stands for the f32 `tan` applied to `fov_y_rad / 2`; the tangent is not
rational, so it is a parameter — every guard (and hence every `none` result)
is independent of it. -/
def project_camera_space_to_screen_direct (tanQ : ℚ → ℚ) (cam : Camera) (p_cam : Point3)
    (screen_width screen_height : ℚ) : Option Point2 :=
  if p_cam.z > -cam.znear + 1 / 1000000 then none
  else if p_cam.z < -cam.zfar then none
  else if -p_cam.z < 1 / 1000000 then none
  else
    let aspect_ratio := screen_width / screen_height
    let focal_length_y := 1 / tanQ (cam.fov_y_rad / 2)
    let focal_length_x := focal_length_y / aspect_ratio
    let ndc_x := p_cam.x * focal_length_x / -p_cam.z
    let ndc_y := p_cam.y * focal_length_y / -p_cam.z
    some ⟨(ndc_x + 1) * (1 / 2) * screen_width, (1 - ndc_y) * (1 / 2) * screen_height⟩

/-! ## Helper lemmas -/

namespace ConvexIntersection

lemma tryEmit_length {out : List Point2} {v : Point2} {out2 : List Point2}
    (h : tryEmit out v = some out2) : out2.length = out.length + 1 ∧ out.length < MAX_VERTICES := by
  unfold tryEmit at h
  split at h
  · cases h
    simp_all
  · cases h

lemma clip_step_length_le {cs ce prev cur : Point2} {out : List Point2}
    (hout : out.length ≤ MAX_VERTICES) :
    (clip_step cs ce prev cur out).1.length ≤ MAX_VERTICES := by
  have hemit : ∀ {v : Point2} {out' out2 : List Point2}, tryEmit out' v = some out2 →
      out2.length ≤ MAX_VERTICES := by
    intro v out' out2 h
    obtain ⟨h1, h2⟩ := tryEmit_length h
    omega
  unfold clip_step
  split_ifs
  · cases he : tryEmit out cur with
    | none => simpa [he] using hout
    | some out2 => simpa [he] using hemit he
  · cases hli : line_intersection prev cur cs ce with
    | none => simpa [hli] using hout
    | some ipt =>
      cases he : tryEmit out ipt with
      | none => simpa [hli, he] using hout
      | some out2 => simpa [hli, he] using hemit he
  · cases hli : line_intersection prev cur cs ce with
    | none =>
      cases he : tryEmit out cur with
      | none => simpa [hli, he] using hout
      | some out2 => simpa [hli, he] using hemit he
    | some ipt =>
      cases he : tryEmit out ipt with
      | none => simpa [hli, he] using hout
      | some out2 =>
        cases he2 : tryEmit out2 cur with
        | none => simpa [hli, he, he2] using hemit he
        | some out3 => simpa [hli, he, he2] using hemit he2
  · simpa using hout

lemma clip_edge_loop_length_le (cs ce : Point2) :
    ∀ (l : List Point2) (prev : Point2) (out : List Point2),
      out.length ≤ MAX_VERTICES → (clip_edge_loop cs ce prev l out).length ≤ MAX_VERTICES := by
  intro l
  induction l with
  | nil => intro prev out hout; simpa [clip_edge_loop] using hout
  | cons cur rest ih =>
    intro prev out hout
    have hstep := @clip_step_length_le cs ce prev cur out hout
    rw [clip_edge_loop]
    rcases hs : clip_step cs ce prev cur out with ⟨out2, b⟩
    cases b
    · simpa [hs] using hstep
    · exact ih cur out2 (by simpa [hs] using hstep)

lemma clip_polygon_by_edge_length_le (subject : List Point2) (cs ce : Point2) :
    (clip_polygon_by_edge subject cs ce).length ≤ MAX_VERTICES := by
  unfold clip_polygon_by_edge
  split
  · simp [MAX_VERTICES]
  · exact clip_edge_loop_length_le cs ce subject _ [] (by simp [MAX_VERTICES])

lemma find_intersection_into_count_le (poly1 poly2 : ConvexPolygon) :
    (find_intersection_into poly1 poly2).count ≤ MAX_VERTICES := by
  unfold find_intersection_into ConvexPolygon.count
  split_ifs
  · simp [MAX_VERTICES]
  · simpa using List.length_take_le MAX_VERTICES poly1.verts
  · simp [MAX_VERTICES]
  · simpa using List.length_take_le MAX_VERTICES _

end ConvexIntersection

/-! ## Claims -/

/-- C1: clipping the square (0,0),(4,0),(4,4),(0,4) against the square
(2,2),(6,2),(6,6),(2,6) yields the 2×2 square with vertex set
{(2,2),(4,2),(4,4),(2,4)} and area 4. -/
theorem c1_concrete_square_clip :
    (ConvexIntersection.find_intersection_into
        ⟨[⟨0, 0⟩, ⟨4, 0⟩, ⟨4, 4⟩, ⟨0, 4⟩]⟩ ⟨[⟨2, 2⟩, ⟨6, 2⟩, ⟨6, 6⟩, ⟨2, 6⟩]⟩).verts
      = [⟨2, 2⟩, ⟨4, 2⟩, ⟨4, 4⟩, ⟨2, 4⟩] ∧
    (ConvexIntersection.find_intersection_into
        ⟨[⟨0, 0⟩, ⟨4, 0⟩, ⟨4, 4⟩, ⟨0, 4⟩]⟩ ⟨[⟨2, 2⟩, ⟨6, 2⟩, ⟨6, 6⟩, ⟨2, 6⟩]⟩).area = 4 := by
  constructor <;>
    norm_num [ConvexIntersection.find_intersection_into, ConvexIntersection.cyclic_edges,
      ConvexIntersection.clip_edges_fold, ConvexIntersection.clip_polygon_by_edge,
      ConvexIntersection.clip_edge_loop, ConvexIntersection.clip_step,
      ConvexIntersection.is_inside, ConvexIntersection.line_intersection,
      ConvexIntersection.tryEmit, ConvexPolygon.area, ConvexPolygon.count, MAX_VERTICES,
      List.range_succ]

/-- C2: with a clip polygon of fewer than 3 vertices,
`find_intersection_into` returns the subject unmodified (empty subject gives
an empty result). -/
theorem c2_degenerate_clip_passthrough (poly1 poly2 : ConvexPolygon)
    (hclip : poly2.count < 3) (hcnt : poly1.count ≤ MAX_VERTICES) :
    ConvexIntersection.find_intersection_into poly1 poly2 = poly1 := by
  cases poly1 with
  | mk verts =>
    by_cases h0 : verts = []
    · subst h0
      simp [ConvexIntersection.find_intersection_into, ConvexPolygon.count]
    · have hne : ConvexPolygon.count ⟨verts⟩ ≠ 0 := by
        simpa [ConvexPolygon.count, List.length_eq_zero] using h0
      have htake : verts.take MAX_VERTICES = verts :=
        List.take_of_length_le (by simpa [ConvexPolygon.count] using hcnt)
      simp [ConvexIntersection.find_intersection_into, hne, hclip, htake]

/-- Witness for C2 at a concrete triangle and a 1-vertex clip polygon. -/
theorem c2_witness :
    ConvexPolygon.count ⟨[⟨5, 5⟩]⟩ < 3 ∧
    ConvexPolygon.count ⟨[⟨0, 0⟩, ⟨1, 0⟩, ⟨0, 1⟩]⟩ ≤ MAX_VERTICES ∧
    ConvexIntersection.find_intersection_into ⟨[⟨0, 0⟩, ⟨1, 0⟩, ⟨0, 1⟩]⟩ ⟨[⟨5, 5⟩]⟩
      = ⟨[⟨0, 0⟩, ⟨1, 0⟩, ⟨0, 1⟩]⟩ :=
  ⟨by decide, by decide, c2_degenerate_clip_passthrough _ _ (by decide) (by decide)⟩

/-- C4: every polygon the clipper produces respects the `MAX_VERTICES`
capacity: the per-edge pass emits at most `MAX_VERTICES` vertices (truncating
with `break` once the buffer is full), `find_intersection_into`'s result count
is at most `MAX_VERTICES`, and `copy_vertices_from_slice` / `set_count` /
`from_points` clamp the stored count to `MAX_VERTICES`. -/
theorem c4_vertex_capacity_bound :
    (∀ (subject : List Point2) (cs ce : Point2),
      (ConvexIntersection.clip_polygon_by_edge subject cs ce).length ≤ MAX_VERTICES) ∧
    (∀ poly1 poly2 : ConvexPolygon,
      (ConvexIntersection.find_intersection_into poly1 poly2).count ≤ MAX_VERTICES) ∧
    (∀ (p : ConvexPolygon) (slice : List Point2),
      (p.copy_vertices_from_slice slice).count ≤ MAX_VERTICES) ∧
    (∀ (p : ConvexPolygon) (c : Nat), (p.set_count c).count ≤ MAX_VERTICES) ∧
    (∀ points : List Point2, (ConvexPolygon.from_points points).count ≤ MAX_VERTICES) := by
  refine ⟨ConvexIntersection.clip_polygon_by_edge_length_le,
    ConvexIntersection.find_intersection_into_count_le, ?_, ?_, ?_⟩
  · intro p slice
    simpa [ConvexPolygon.copy_vertices_from_slice, ConvexPolygon.count] using
      List.length_take_le MAX_VERTICES slice
  · intro p c
    simp only [ConvexPolygon.set_count, ConvexPolygon.count]
    have := List.length_take_le (min c MAX_VERTICES) p.verts
    omega
  · intro points
    simpa [ConvexPolygon.from_points, ConvexPolygon.count] using
      List.length_take_le MAX_VERTICES points

/-- A convex polygon listed in counter-clockwise winding order: every vertex
lies on or to the left of every directed boundary edge (cross ≥ 0). -/
def ccw_convex (l : List Point2) : Prop :=
  ∀ e ∈ ConvexIntersection.cyclic_edges l, ∀ p ∈ l,
    0 ≤ (e.2.x - e.1.x) * (p.y - e.1.y) - (e.2.y - e.1.y) * (p.x - e.1.x)

instance (l : List Point2) : Decidable (ccw_convex l) := by
  unfold ccw_convex
  infer_instance

lemma is_inside_of_cross_nonneg {p a b : Point2}
    (h : 0 ≤ (b.x - a.x) * (p.y - a.y) - (b.y - a.y) * (p.x - a.x)) :
    ConvexIntersection.is_inside p a b := by
  unfold ConvexIntersection.is_inside
  linarith

lemma clip_edges_fold_of_all_inside (edges : List (Point2 × Point2)) :
    ∀ subject : List Point2,
      (∀ e ∈ edges, ∀ p ∈ subject, ConvexIntersection.is_inside p e.1 e.2) →
      ConvexIntersection.clip_edges_fold edges subject = subject := by
  induction edges with
  | nil => intro subject _; rfl
  | cons e rest ih =>
    intro subject h
    obtain ⟨cs, ce⟩ := e
    rw [ConvexIntersection.clip_edges_fold]
    by_cases hs : subject.isEmpty
    · simp [hs]
    · have hall : ∀ p ∈ subject, ConvexIntersection.is_inside p cs ce := fun p hp =>
        h (cs, ce) (List.mem_cons_self _ _) p hp
      rw [if_neg (by simpa using hs), if_pos hall]
      exact ih subject fun e he p hp => h e (List.mem_cons_of_mem _ he) p hp

/-- C3: clipping a counter-clockwise convex polygon with at least 3 and at
most `MAX_VERTICES` vertices against itself returns it unchanged (every
self-edge pass is skipped because every vertex already lies inside). -/
theorem c3_clip_idempotent_on_ccw_convex (P : ConvexPolygon) (h3 : 3 ≤ P.count)
    (h16 : P.count ≤ MAX_VERTICES) (hccw : ccw_convex P.verts) :
    ConvexIntersection.find_intersection_into P P = P := by
  have hne : ¬ P.count = 0 := by omega
  have hlt : ¬ P.count < 3 := by omega
  have hfold : ConvexIntersection.clip_edges_fold
      (ConvexIntersection.cyclic_edges P.verts) P.verts = P.verts :=
    clip_edges_fold_of_all_inside _ _ fun e he p hp =>
      is_inside_of_cross_nonneg (hccw e he p hp)
  have hnonempty : P.verts.isEmpty = false := by
    cases hv : P.verts with
    | nil => exact absurd (by simp [ConvexPolygon.count, hv]) hne
    | cons a l => rfl
  unfold ConvexIntersection.find_intersection_into
  rw [if_neg hne, if_neg hlt, hfold, if_neg (by simp [hnonempty]),
    List.take_of_length_le (by simpa [ConvexPolygon.count] using h16)]

/-- Witness for C3 at the concrete 4×4 square. -/
theorem c3_witness :
    3 ≤ ConvexPolygon.count ⟨[⟨0, 0⟩, ⟨4, 0⟩, ⟨4, 4⟩, ⟨0, 4⟩]⟩ ∧
    ConvexPolygon.count ⟨[⟨0, 0⟩, ⟨4, 0⟩, ⟨4, 4⟩, ⟨0, 4⟩]⟩ ≤ MAX_VERTICES ∧
    ccw_convex [⟨0, 0⟩, ⟨4, 0⟩, ⟨4, 4⟩, ⟨0, 4⟩] ∧
    ConvexIntersection.find_intersection_into ⟨[⟨0, 0⟩, ⟨4, 0⟩, ⟨4, 4⟩, ⟨0, 4⟩]⟩
        ⟨[⟨0, 0⟩, ⟨4, 0⟩, ⟨4, 4⟩, ⟨0, 4⟩]⟩
      = ⟨[⟨0, 0⟩, ⟨4, 0⟩, ⟨4, 4⟩, ⟨0, 4⟩]⟩ := by
  have hccw : ccw_convex [⟨0, 0⟩, ⟨4, 0⟩, ⟨4, 4⟩, ⟨0, 4⟩] := by
    norm_num [ccw_convex, ConvexIntersection.cyclic_edges, List.range_succ]
  exact ⟨by decide, by decide, hccw,
    c3_clip_idempotent_on_ccw_convex _ (by decide) (by decide) hccw⟩

/-! ### Sample scene used by witnesses (a single cuboid-style room) -/

/-- Sample room: solid wall at `x = 0` (interior normal `+x`). -/
def sample_wall_side : BlueprintSide :=
  { vertex_indices := [0, 1, 2],
    local_normal := ⟨1, 0, 0⟩,
    handler_type := .StandardWall,
    default_handler_config := .StandardWall (7/10, 7/10, 7/10, 1) Option.none,
    local_portal_id := Option.none }

/-- Sample room: portal side at `z = 0` (interior normal `+z`, local portal id
`PORTAL_ID_BACK`, targeting instance 1's `PORTAL_ID_FRONT`). -/
def sample_portal_side : BlueprintSide :=
  { vertex_indices := [0, 1, 3],
    local_normal := ⟨0, 0, 1⟩,
    handler_type := .StandardPortal,
    default_handler_config := .StandardPortal 1 PORTAL_ID_FRONT,
    local_portal_id := Option.some PORTAL_ID_BACK }

/-- Sample room: mis-wired portal side at `y = 0` (portal config but no
`local_portal_id`). -/
def sample_miswired_side : BlueprintSide :=
  { vertex_indices := [0, 2, 3],
    local_normal := ⟨0, 1, 0⟩,
    handler_type := .StandardPortal,
    default_handler_config := .StandardPortal 1 PORTAL_ID_FRONT,
    local_portal_id := Option.none }

/-- Sample room blueprint with the three sides above. -/
def sample_blueprint : HullBlueprint :=
  { id := 0,
    name := "room",
    local_vertices := [⟨0, 0, 0⟩, ⟨3, 0, 0⟩, ⟨0, 3, 0⟩, ⟨0, 0, 3⟩],
    sides := [sample_wall_side, sample_portal_side, sample_miswired_side] }

/-- Sample instance of `sample_blueprint` with no per-side overrides. -/
def sample_instance : HullInstance :=
  { id := 0,
    name := "room-0",
    blueprint_id := 0,
    initial_transform := Option.none,
    portal_connections := fun _ => Option.none,
    instance_side_handler_configs := fun _ => Option.none }

/-- Sample scene: one blueprint, one instance, camera in instance 0. -/
def sample_scene : Scene :=
  { blueprints := fun i => if i = 0 then Option.some sample_blueprint else Option.none,
    instances := fun i => if i = 0 then Option.some sample_instance else Option.none,
    active_camera_instance_id := 0,
    active_camera_local_transform := 1 }

/-- Sample handler context sitting on the portal side of the sample room at
the maximum recursion depth. -/
def sample_portal_context : HandlerContext :=
  { scene := sample_scene,
    current_instance := sample_instance,
    blueprint_side := sample_portal_side,
    side_config := .StandardPortal 1 PORTAL_ID_FRONT,
    transform_to_camera_host_hull := 1,
    camera_view_from_host_hull := 1,
    visible_screen_polygon := ⟨[]⟩,
    current_recursion_depth := MAX_PORTAL_RECURSION_DEPTH,
    cull_test_passes := true }

/-! ### C5 -/

lemma process_render_some_depth {ctx : HandlerContext} {t : TraversalState}
    (h : process_render ctx = some t) :
    ctx.current_recursion_depth < MAX_PORTAL_RECURSION_DEPTH ∧
    t.recursion_depth = ctx.current_recursion_depth + 1 := by
  unfold process_render at h
  rcases hc : ctx.side_config with ⟨c, tex⟩ | ⟨tid, tpid⟩ | ⟨rl, sr⟩ | ⟨sc, rr⟩ |
    ⟨a, b, c⟩ | ⟨tn, o, i⟩ | _ <;> simp only [hc] at h <;> try cases h
  by_cases h1 : ctx.blueprint_side.vertex_indices = []
  · rw [if_pos h1] at h
    cases h
  · rw [if_neg h1] at h
    rcases hbp : ctx.scene.blueprints ctx.current_instance.blueprint_id with _ | bp
    · simp only [hbp] at h
      cases h
    · simp only [hbp] at h
      by_cases h2 : ctx.blueprint_side.vertex_indices.getD 0 0 < bp.local_vertices.length
      · rw [if_pos h2] at h
        by_cases h3 : (!ctx.cull_test_passes) = true
        · rw [if_pos h3] at h
          cases h
        · rw [if_neg h3] at h
          by_cases h4 : ctx.current_recursion_depth ≥ MAX_PORTAL_RECURSION_DEPTH
          · rw [if_pos h4] at h
            cases h
          · rw [if_neg h4] at h
            by_cases h5 : (ctx.scene.instances tid).isNone = true
            · rw [if_pos h5] at h
              cases h
            · rw [if_neg h5] at h
              rcases hp : ctx.blueprint_side.local_portal_id with _ | pid <;>
                simp only [hp] at h
              · cases h
              · injection h with h6
                subst h6
                exact ⟨by omega, rfl⟩
      · rw [if_neg h2] at h
        cases h

lemma process_render_none_of_depth_exhausted (ctx : HandlerContext)
    (h : MAX_PORTAL_RECURSION_DEPTH ≤ ctx.current_recursion_depth) :
    process_render ctx = none := by
  unfold process_render
  rcases hc : ctx.side_config with ⟨c, tex⟩ | ⟨tid, tpid⟩ | ⟨rl, sr⟩ | ⟨sc, rr⟩ |
    ⟨a, b, c⟩ | ⟨tn, o, i⟩ | _ <;> simp only [hc] <;> try rfl
  by_cases h1 : ctx.blueprint_side.vertex_indices = []
  · rw [if_pos h1]
  · rw [if_neg h1]
    rcases hbp : ctx.scene.blueprints ctx.current_instance.blueprint_id with _ | bp <;>
      simp only [hbp]
    by_cases h2 : ctx.blueprint_side.vertex_indices.getD 0 0 < bp.local_vertices.length
    · rw [if_pos h2]
      by_cases h3 : (!ctx.cull_test_passes) = true
      · rw [if_pos h3]
      · rw [if_neg h3, if_pos (show ctx.current_recursion_depth ≥ MAX_PORTAL_RECURSION_DEPTH from h)]
    · rw [if_neg h2]

/-- C5: the portal handler refuses to enqueue once the current recursion depth
has reached `MAX_PORTAL_RECURSION_DEPTH`, and consequently every
`TraversalState` ever placed on the traversal queue (which starts from the
single depth-0 state) has `recursion_depth ≤ MAX_PORTAL_RECURSION_DEPTH`. -/
theorem c5_portal_recursion_bound :
    (∀ ctx : HandlerContext, MAX_PORTAL_RECURSION_DEPTH ≤ ctx.current_recursion_depth →
      process_render ctx = none) ∧
    (∀ (host : InstanceId) (viewport : ConvexPolygon) (q : List TraversalState),
      QueueReachable host viewport q →
      ∀ t ∈ q, t.recursion_depth ≤ MAX_PORTAL_RECURSION_DEPTH) := by
  refine ⟨process_render_none_of_depth_exhausted, ?_⟩
  intro host viewport q hq
  induction hq with
  | init =>
    intro t ht
    rw [List.mem_singleton] at ht
    subst ht
    simp [initial_traversal_state]
  | step hq hstep ih =>
    cases hstep with
    | pop s q' enq henq =>
      intro t ht
      rcases List.mem_append.mp ht with hleft | hright
      · exact ih t (List.mem_cons_of_mem _ hleft)
      · obtain ⟨ctx, hdepth, hpr⟩ := henq t hright
        obtain ⟨hlt, heq⟩ := process_render_some_depth hpr
        omega

/-- Witness for C5: the depth-exhausted sample context yields no enqueue, and
the initial depth-0 state of a reachable queue is within the bound. -/
theorem c5_witness :
    MAX_PORTAL_RECURSION_DEPTH ≤ sample_portal_context.current_recursion_depth ∧
    process_render sample_portal_context = none ∧
    (initial_traversal_state 0 ⟨[]⟩).recursion_depth ≤ MAX_PORTAL_RECURSION_DEPTH := by
  refine ⟨le_refl _, c5_portal_recursion_bound.1 sample_portal_context (le_refl _), ?_⟩
  exact c5_portal_recursion_bound.2 0 ⟨[]⟩ _ QueueReachable.init _ (List.mem_singleton_self _)

/-! ### C6 / C10 — boundary check characterization -/

/-- A blueprint side "violated" by a proposed position: it takes part in the
check (non-empty `vertex_indices`) and the signed distance is below
`-COLLISION_EPSILON`. -/
def side_violated (pos : Vec3) (bp : HullBlueprint) (side : BlueprintSide) : Prop :=
  side.vertex_indices ≠ [] ∧ signed_distance_to_side pos bp side < -COLLISION_EPSILON

instance (pos : Vec3) (bp : HullBlueprint) (side : BlueprintSide) :
    Decidable (side_violated pos bp side) := by
  unfold side_violated
  infer_instance

lemma side_boundary_result_ne_inside (pos : Vec3) (i : SideIndex) (side : BlueprintSide)
    (cfg : HandlerConfig) : side_boundary_result pos i side cfg ≠ .Inside := by
  unfold side_boundary_result
  cases cfg <;> simp
  split <;> simp

lemma check_loop_inside_iff (pos : Vec3) (bp : HullBlueprint) (inst : HullInstance) :
    ∀ (l : List BlueprintSide) (k : Nat),
      (check_loop pos bp inst k l = .Inside ↔ ∀ side ∈ l, ¬ side_violated pos bp side) := by
  intro l
  induction l with
  | nil => intro k; simp [check_loop]
  | cons side rest ih =>
    intro k
    rw [check_loop]
    by_cases h1 : side.vertex_indices = []
    · rw [if_pos h1]
      constructor
      · intro h s hs
        rcases List.mem_cons.mp hs with rfl | hs'
        · exact fun hv => hv.1 h1
        · exact ((ih (k + 1)).mp h) s hs'
      · intro h
        exact (ih (k + 1)).mpr fun s hs => h s (List.mem_cons_of_mem _ hs)
    · rw [if_neg h1]
      by_cases h2 : signed_distance_to_side pos bp side < -COLLISION_EPSILON
      · rw [if_pos h2]
        constructor
        · intro h
          exact absurd h (side_boundary_result_ne_inside _ _ _ _)
        · intro h
          exact absurd ⟨h1, h2⟩ (h side (List.mem_cons_self _ _))
      · rw [if_neg h2]
        constructor
        · intro h s hs
          rcases List.mem_cons.mp hs with rfl | hs'
          · exact fun hv => h2 hv.2
          · exact ((ih (k + 1)).mp h) s hs'
        · intro h
          exact (ih (k + 1)).mpr fun s hs => h s (List.mem_cons_of_mem _ hs)

lemma check_loop_first_violated (pos : Vec3) (bp : HullBlueprint) (inst : HullInstance) :
    ∀ (l : List BlueprintSide) (k j : Nat) (side : BlueprintSide),
      l.get? j = some side → side_violated pos bp side →
      (∀ i si, i < j → l.get? i = some si → ¬ side_violated pos bp si) →
      check_loop pos bp inst k l =
        side_boundary_result pos (k + j) side (effective_config inst (k + j) side) := by
  intro l
  induction l with
  | nil => intro k j side hget; cases hget
  | cons hd rest ih =>
    intro k j side hget hviol hfirst
    cases j with
    | zero =>
      cases hget
      rw [check_loop, if_neg hviol.1, if_pos hviol.2]
      simp
    | succ j' =>
      have hhd : ¬ side_violated pos bp hd :=
        hfirst 0 hd (Nat.succ_pos _) rfl
      have hrec := ih (k + 1) j' side hget hviol
        (fun i si hi hsi => hfirst (i + 1) si (Nat.succ_lt_succ hi) hsi)
      have harith : k + 1 + j' = k + (j' + 1) := by omega
      rw [harith] at hrec
      rw [check_loop]
      by_cases h1 : hd.vertex_indices = []
      · rw [if_pos h1, hrec]
      · rw [if_neg h1]
        have h2 : ¬ signed_distance_to_side pos bp hd < -COLLISION_EPSILON := fun h2 =>
          hhd ⟨h1, h2⟩
        rw [if_neg h2, hrec]

/-- C6: `check_camera_hull_boundary` returns `Inside` exactly when no side
(with a non-empty vertex-index list) has signed distance below
`-COLLISION_EPSILON`, and otherwise its result is the one produced from the
first violated side in stored order, all later sides being ignored. -/
theorem c6_first_violated_side_decides (pos : Vec3) (bp : HullBlueprint) (inst : HullInstance) :
    (check_camera_hull_boundary pos bp inst = .Inside ↔
      ∀ side ∈ bp.sides, ¬ side_violated pos bp side) ∧
    (∀ (j : Nat) (side : BlueprintSide), bp.sides.get? j = some side →
      side_violated pos bp side →
      (∀ i si, i < j → bp.sides.get? i = some si → ¬ side_violated pos bp si) →
      check_camera_hull_boundary pos bp inst =
        side_boundary_result pos j side (effective_config inst j side)) := by
  constructor
  · exact check_loop_inside_iff pos bp inst bp.sides 0
  · intro j side hget hviol hfirst
    simpa using check_loop_first_violated pos bp inst bp.sides 0 j side hget hviol hfirst

/-- Witness for C6: in the sample room, position `(-1, 1, 1)` violates the
`x = 0` wall (side 0) first, and the check returns `Collision` for it. -/
theorem c6_witness :
    sample_blueprint.sides.get? 0 = some sample_wall_side ∧
    side_violated ⟨-1, 1, 1⟩ sample_blueprint sample_wall_side ∧
    check_camera_hull_boundary ⟨-1, 1, 1⟩ sample_blueprint sample_instance =
      .Collision 0 ⟨-1, 1, 1⟩ := by
  have hget : sample_blueprint.sides.get? 0 = some sample_wall_side := by
    simp [sample_blueprint]
  have hviol : side_violated ⟨-1, 1, 1⟩ sample_blueprint sample_wall_side := by
    constructor
    · simp [sample_wall_side]
    · norm_num [signed_distance_to_side, sample_blueprint, sample_wall_side, Vec3.dot,
        COLLISION_EPSILON]
  refine ⟨hget, hviol, ?_⟩
  have := (c6_first_violated_side_decides ⟨-1, 1, 1⟩ sample_blueprint sample_instance).2 0
    sample_wall_side hget hviol (fun i si hi _ => absurd hi (Nat.not_lt_zero i))
  rw [this]
  simp [side_boundary_result, effective_config, sample_wall_side, sample_instance]

/-- C10: when the first violated side's effective handler config is
`StandardPortal` but the blueprint side has no `local_portal_id`, the check
returns `Collision` for that side (a mis-wired portal acts as a solid
wall). -/
theorem c10_miswired_portal_collides (pos : Vec3) (bp : HullBlueprint) (inst : HullInstance)
    (j : Nat) (side : BlueprintSide) (tid : InstanceId) (tpid : PortalId)
    (hget : bp.sides.get? j = some side) (hviol : side_violated pos bp side)
    (hfirst : ∀ i si, i < j → bp.sides.get? i = some si → ¬ side_violated pos bp si)
    (hcfg : effective_config inst j side = .StandardPortal tid tpid)
    (hnoid : side.local_portal_id = Option.none) :
    check_camera_hull_boundary pos bp inst = .Collision j pos := by
  have h := check_loop_first_violated pos bp inst bp.sides 0 j side hget hviol hfirst
  rw [check_camera_hull_boundary] at *
  rw [h]
  simp [side_boundary_result, hcfg, hnoid]

/-- Witness for C10: in the sample room, position `(1, -1, 1)` first violates
side 2, whose config is a portal but whose `local_portal_id` is `None`; the
result is a `Collision`. -/
theorem c10_witness :
    check_camera_hull_boundary ⟨1, -1, 1⟩ sample_blueprint sample_instance =
      .Collision 2 ⟨1, -1, 1⟩ := by
  refine c10_miswired_portal_collides _ _ _ 2 sample_miswired_side 1 PORTAL_ID_FRONT
    ?_ ?_ ?_ ?_ ?_
  · simp [sample_blueprint]
  · constructor
    · simp [sample_miswired_side]
    · norm_num [signed_distance_to_side, sample_blueprint, sample_miswired_side, Vec3.dot,
        COLLISION_EPSILON]
  · intro i si hi hget
    interval_cases i <;>
      simp only [sample_blueprint, List.get?] at hget <;> cases hget <;>
        norm_num [side_violated, signed_distance_to_side, sample_blueprint, sample_wall_side,
          sample_portal_side, Vec3.dot, COLLISION_EPSILON]
  · simp [effective_config, sample_miswired_side, sample_instance]
  · simp [sample_miswired_side]

/-! ### Vec3 / Mat4 component lemmas -/

@[simp] lemma Vec3.add_x (a b : Vec3) : (a + b).x = a.x + b.x := rfl
@[simp] lemma Vec3.add_y (a b : Vec3) : (a + b).y = a.y + b.y := rfl
@[simp] lemma Vec3.add_z (a b : Vec3) : (a + b).z = a.z + b.z := rfl
@[simp] lemma Vec3.sub_x (a b : Vec3) : (a - b).x = a.x - b.x := rfl
@[simp] lemma Vec3.sub_y (a b : Vec3) : (a - b).y = a.y - b.y := rfl
@[simp] lemma Vec3.sub_z (a b : Vec3) : (a - b).z = a.z - b.z := rfl
@[simp] lemma Vec3.smul_x (k : ℚ) (a : Vec3) : (k • a).x = k * a.x := rfl
@[simp] lemma Vec3.smul_y (k : ℚ) (a : Vec3) : (k • a).y = k * a.y := rfl
@[simp] lemma Vec3.smul_z (k : ℚ) (a : Vec3) : (k • a).z = k * a.z := rfl
@[simp] lemma Vec3.zero_x : (0 : Vec3).x = 0 := rfl
@[simp] lemma Vec3.zero_y : (0 : Vec3).y = 0 := rfl
@[simp] lemma Vec3.zero_z : (0 : Vec3).z = 0 := rfl
@[simp] lemma Vec3.neg_x (a : Vec3) : (-a).x = -a.x := rfl
@[simp] lemma Vec3.neg_y (a : Vec3) : (-a).y = -a.y := rfl
@[simp] lemma Vec3.neg_z (a : Vec3) : (-a).z = -a.z := rfl

lemma Vec3.ext' {a b : Vec3} (hx : a.x = b.x) (hy : a.y = b.y) (hz : a.z = b.z) : a = b := by
  cases a
  cases b
  simp_all

/-! ### C7 — collision pushback -/

lemma signed_distance_add_smul (pos : Vec3) (bp : HullBlueprint) (side : BlueprintSide) (k : ℚ) :
    signed_distance_to_side (pos + k • side.local_normal) bp side =
      signed_distance_to_side pos bp side + k * side.local_normal.length_squared := by
  unfold signed_distance_to_side Vec3.length_squared Vec3.dot
  simp only [Vec3.add_x, Vec3.add_y, Vec3.add_z, Vec3.smul_x, Vec3.smul_y, Vec3.smul_z]
  ring

/-- C7: when `update_camera_in_scene` resolves a `Collision` against a side
whose normal has squared length above `1e-6`, the stored pose keeps the
proposed rotation factor and moves the proposed position along the side's
normal so that its signed distance to the violated plane becomes exactly
`PUSH_OUT_DISTANCE = 1e-3`, which is strictly positive and at most `1e-2`. -/
theorem c7_collision_pushback (scene : Scene) (pos : Vec3) (R : Mat4)
    (inst : HullInstance) (bp : HullBlueprint) (j : SideIndex) (cp : Vec3) (side : BlueprintSide)
    (hinst : scene.instances scene.active_camera_instance_id = some inst)
    (hbp : scene.blueprints inst.blueprint_id = some bp)
    (hcheck : check_camera_hull_boundary pos bp inst = .Collision j cp)
    (hside : bp.sides.get? j = some side)
    (hnorm : side.local_normal.length_squared > 1 / 1000000) :
    update_camera_in_scene scene pos R =
      some { scene with active_camera_local_transform :=
        Mat4.from_translation (pos +
          ((PUSH_OUT_DISTANCE - signed_distance_to_side pos bp side) /
            side.local_normal.length_squared) • side.local_normal) * R } ∧
    signed_distance_to_side
        (pos + ((PUSH_OUT_DISTANCE - signed_distance_to_side pos bp side) /
          side.local_normal.length_squared) • side.local_normal) bp side = PUSH_OUT_DISTANCE ∧
    (0 : ℚ) < PUSH_OUT_DISTANCE ∧ PUSH_OUT_DISTANCE ≤ 1 / 100 := by
  have hlen : side.local_normal.length_squared ≠ 0 := by
    intro h0
    rw [h0] at hnorm
    norm_num at hnorm
  refine ⟨?_, ?_, by norm_num [PUSH_OUT_DISTANCE], by norm_num [PUSH_OUT_DISTANCE]⟩
  · unfold update_camera_in_scene
    rw [hinst]
    simp only [Option.bind_eq_bind, Option.some_bind]
    rw [hbp]
    simp only [Option.some_bind, hcheck]
    rw [hside]
    simp only [Option.some_bind]
    rw [if_pos hnorm]
  · rw [signed_distance_add_smul, div_mul_cancel₀ _ hlen]
    ring

/-- Witness for C7: the sample room at proposed position `(-1, 1, 1)`; the
`x = 0` wall is violated and the corrected position has signed distance
exactly `PUSH_OUT_DISTANCE`. -/
theorem c7_witness :
    check_camera_hull_boundary ⟨-1, 1, 1⟩ sample_blueprint sample_instance =
      .Collision 0 ⟨-1, 1, 1⟩ ∧
    sample_wall_side.local_normal.length_squared > 1 / 1000000 ∧
    signed_distance_to_side
        ((⟨-1, 1, 1⟩ : Vec3) +
          ((PUSH_OUT_DISTANCE - signed_distance_to_side ⟨-1, 1, 1⟩ sample_blueprint
              sample_wall_side) / sample_wall_side.local_normal.length_squared) •
            sample_wall_side.local_normal) sample_blueprint sample_wall_side =
      PUSH_OUT_DISTANCE := by
  have hcheck : check_camera_hull_boundary ⟨-1, 1, 1⟩ sample_blueprint sample_instance =
      .Collision 0 ⟨-1, 1, 1⟩ := by
    norm_num [check_camera_hull_boundary, check_loop, signed_distance_to_side,
      sample_blueprint, sample_wall_side, sample_portal_side, sample_miswired_side,
      Vec3.dot, COLLISION_EPSILON, side_boundary_result, effective_config, sample_instance,
      List.getD]
    intro h
    cases h
  have hnorm : sample_wall_side.local_normal.length_squared > 1 / 1000000 := by
    norm_num [sample_wall_side, Vec3.length_squared, Vec3.dot]
  have hmain := c7_collision_pushback sample_scene ⟨-1, 1, 1⟩ 1 sample_instance
    sample_blueprint 0 ⟨-1, 1, 1⟩ sample_wall_side rfl rfl hcheck (by simp [sample_blueprint])
    hnorm
  exact ⟨hcheck, hnorm, hmain.2.1⟩

/-! ### C8 — portal traversal of the camera -/

lemma from_translation_mul_from_translation (a b : Vec3) :
    Mat4.from_translation a * Mat4.from_translation b = Mat4.from_translation (a + b) := by
  ext i j
  fin_cases i <;> fin_cases j <;>
    simp [Mat4.from_translation, Matrix.mul_apply, Fin.sum_univ_four, Matrix.vecHead,
      Matrix.vecTail] <;> ring

lemma from_translation_zero : Mat4.from_translation (0 : Vec3) = 1 := by
  ext i j
  fin_cases i <;> fin_cases j <;>
    simp [Mat4.from_translation, Matrix.one_apply, Matrix.vecHead, Matrix.vecTail]

lemma Mat4.inverse_eq_nonsing_inv (m : Mat4) : m.inverse = m⁻¹ := by
  rw [Mat4.inverse, Matrix.inv_def]
  congr 1
  exact (Ring.inverse_eq_inv _).symm

lemma inverse_from_translation (v : Vec3) :
    (Mat4.from_translation v).inverse = Mat4.from_translation (-v) := by
  rw [Mat4.inverse_eq_nonsing_inv]
  apply Matrix.inv_eq_right_inv
  rw [from_translation_mul_from_translation]
  have hvv : v + -v = (0 : Vec3) := by
    apply Vec3.ext' <;> simp
  rw [hvv, from_translation_zero]

lemma w_axis_from_translation (v : Vec3) : (Mat4.from_translation v).w_axis_xyz = v := by
  unfold Mat4.w_axis_xyz
  apply Vec3.ext' <;> simp [Mat4.from_translation, Matrix.vecHead, Matrix.vecTail]

lemma w_axis_from_translation_mul (v : Vec3) (R : Mat4) (h33 : R 3 3 = 1) :
    Mat4.w_axis_xyz (Mat4.from_translation v * R) = v + R.w_axis_xyz := by
  unfold Mat4.w_axis_xyz
  apply Vec3.ext' <;>
    simp [Matrix.mul_apply, Fin.sum_univ_four, Mat4.from_translation, Matrix.vecHead,
      Matrix.vecTail, h33] <;> ring

lemma transform_vector3_from_translation_mul (v : Vec3) (R : Mat4) (u : Vec3)
    (h30 : R 3 0 = 0) (h31 : R 3 1 = 0) (h32 : R 3 2 = 0) :
    Mat4.transform_vector3 (Mat4.from_translation v * R) u = R.transform_vector3 u := by
  unfold Mat4.transform_vector3
  apply Vec3.ext' <;>
    simp [Matrix.mul_apply, Fin.sum_univ_four, Mat4.from_translation, Matrix.vecHead,
      Matrix.vecTail, h30, h31, h32] <;> ring

lemma with_translation_w_axis (m : Mat4) (t : Vec3) : (m.with_translation t).w_axis_xyz = t := by
  unfold Mat4.with_translation Mat4.w_axis_xyz
  apply Vec3.ext' <;> simp [Matrix.vecHead, Matrix.vecTail]

lemma transform_vector3_one (u : Vec3) : (1 : Mat4).transform_vector3 u = u := by
  unfold Mat4.transform_vector3
  apply Vec3.ext' <;> simp [Matrix.one_apply]

lemma w_axis_one : (1 : Mat4).w_axis_xyz = 0 := by
  unfold Mat4.w_axis_xyz
  apply Vec3.ext' <;> simp [Matrix.one_apply]

lemma get_portal_alignment_transform_translation (s u : PortalId) :
    ∃ v : Vec3, get_portal_alignment_transform s u = Mat4.from_translation v := by
  unfold get_portal_alignment_transform
  split <;> first
    | exact ⟨_, rfl⟩
    | exact ⟨0, from_translation_zero.symm⟩

/-- Shared content of C8: on a `Traverse`, the updated scene points at the
target instance and its pose translation is the proposed position, shifted by
the inverse-applied alignment translation, plus the small traversal push along
the camera's new local `-Z` axis. -/
lemma traverse_update_spec (scene : Scene) (pos : Vec3) (R : Mat4)
    (inst : HullInstance) (bp : HullBlueprint) (j : SideIndex) (tid : InstanceId)
    (tpid : PortalId) (side : BlueprintSide) (pid : PortalId)
    (hinst : scene.instances scene.active_camera_instance_id = some inst)
    (hbp : scene.blueprints inst.blueprint_id = some bp)
    (hcheck : check_camera_hull_boundary pos bp inst = .Traverse j tid tpid)
    (hside : bp.sides.get? j = some side)
    (hpid : side.local_portal_id = some pid)
    (h30 : R 3 0 = 0) (h31 : R 3 1 = 0) (h32 : R 3 2 = 0) (h33 : R 3 3 = 1)
    (hRt : R.w_axis_xyz = 0) :
    ∃ scene', update_camera_in_scene scene pos R = some scene' ∧
      scene'.active_camera_instance_id = tid ∧
      scene'.active_camera_local_transform.w_axis_xyz =
        pos - (get_portal_alignment_transform pid tpid).w_axis_xyz +
          R.transform_vector3 ⟨0, 0, -TRAVERSAL_PUSH_DISTANCE⟩ := by
  obtain ⟨v, hv⟩ := get_portal_alignment_transform_translation pid tpid
  have hupdate : update_camera_in_scene scene pos R = some
      { scene with
          active_camera_instance_id := tid,
          active_camera_local_transform := apply_traversal_push
            ((get_portal_alignment_transform pid tpid).inverse *
              (Mat4.from_translation pos * R)) } := by
    unfold update_camera_in_scene
    rw [hinst]
    simp only [Option.bind_eq_bind, Option.some_bind]
    rw [hbp]
    simp only [Option.some_bind, hcheck]
    rw [hside]
    simp only [Option.some_bind, hpid]
  refine ⟨_, hupdate, rfl, ?_⟩
  rw [hv, inverse_from_translation, ← mul_assoc, from_translation_mul_from_translation]
  unfold apply_traversal_push
  rw [with_translation_w_axis, w_axis_from_translation_mul _ _ h33, hRt,
    transform_vector3_from_translation_mul _ _ _ h30 h31 h32, w_axis_from_translation]
  apply Vec3.ext' <;> simp <;> ring

/-- C8 (amended): on a `Traverse`, the active camera instance id becomes the
configured target and the new local pose translation differs from the naive
same-space continuation by the inverse-applied translation component of the
portal alignment transform PLUS the small traversal push
(`TRAVERSAL_PUSH_DISTANCE` along the camera's new local `-Z`); the claim's
"differs ... by exactly the alignment translation" omits the push (see the
counterexample). -/
theorem c8_traverse_pose_amended (scene : Scene) (pos : Vec3) (R : Mat4)
    (inst : HullInstance) (bp : HullBlueprint) (j : SideIndex) (tid : InstanceId)
    (tpid : PortalId) (side : BlueprintSide) (pid : PortalId)
    (hinst : scene.instances scene.active_camera_instance_id = some inst)
    (hbp : scene.blueprints inst.blueprint_id = some bp)
    (hcheck : check_camera_hull_boundary pos bp inst = .Traverse j tid tpid)
    (hside : bp.sides.get? j = some side)
    (hpid : side.local_portal_id = some pid)
    (h30 : R 3 0 = 0) (h31 : R 3 1 = 0) (h32 : R 3 2 = 0) (h33 : R 3 3 = 1)
    (hRt : R.w_axis_xyz = 0) :
    ∃ scene', update_camera_in_scene scene pos R = some scene' ∧
      scene'.active_camera_instance_id = tid ∧
      scene'.active_camera_local_transform.w_axis_xyz =
        pos - (get_portal_alignment_transform pid tpid).w_axis_xyz +
          R.transform_vector3 ⟨0, 0, -TRAVERSAL_PUSH_DISTANCE⟩ :=
  traverse_update_spec scene pos R inst bp j tid tpid side pid hinst hbp hcheck hside hpid
    h30 h31 h32 h33 hRt

/-- Witness for C8 at the sample room: proposed position `(1, 1, -1)` crosses
the portal side into instance 1. -/
theorem c8_witness :
    check_camera_hull_boundary ⟨1, 1, -1⟩ sample_blueprint sample_instance =
      .Traverse 1 1 PORTAL_ID_FRONT ∧
    sample_portal_side.local_portal_id = some PORTAL_ID_BACK ∧
    (∃ scene', update_camera_in_scene sample_scene ⟨1, 1, -1⟩ 1 = some scene' ∧
      scene'.active_camera_instance_id = 1 ∧
      scene'.active_camera_local_transform.w_axis_xyz =
        (⟨1, 1, -1⟩ : Vec3) -
          (get_portal_alignment_transform PORTAL_ID_BACK PORTAL_ID_FRONT).w_axis_xyz +
          (1 : Mat4).transform_vector3 ⟨0, 0, -TRAVERSAL_PUSH_DISTANCE⟩) := by
  have hcheck : check_camera_hull_boundary ⟨1, 1, -1⟩ sample_blueprint sample_instance =
      .Traverse 1 1 PORTAL_ID_FRONT := by
    norm_num [check_camera_hull_boundary, check_loop, signed_distance_to_side,
      sample_blueprint, sample_wall_side, sample_portal_side, sample_miswired_side,
      Vec3.dot, COLLISION_EPSILON, side_boundary_result, effective_config, sample_instance,
      List.getD, PORTAL_ID_FRONT]
    intro h
    cases h
  refine ⟨hcheck, rfl, ?_⟩
  exact c8_traverse_pose_amended sample_scene ⟨1, 1, -1⟩ 1 sample_instance
    sample_blueprint 1 1 PORTAL_ID_FRONT sample_portal_side PORTAL_ID_BACK rfl rfl hcheck
    (by simp [sample_blueprint]) rfl (by simp [Matrix.one_apply]) (by simp [Matrix.one_apply])
    (by simp [Matrix.one_apply]) (by simp [Matrix.one_apply]) w_axis_one

/-- Counterexample to C8 as stated: at the concrete traversal above, the new
pose translation does NOT equal the naive continuation shifted by exactly the
inverse-applied alignment translation — the traversal push makes it differ. -/
theorem c8_counterexample :
    ∃ w : Vec3, Option.map (fun s => s.active_camera_local_transform.w_axis_xyz)
        (update_camera_in_scene sample_scene ⟨1, 1, -1⟩ 1) = some w ∧
      w ≠ (⟨1, 1, -1⟩ : Vec3) -
        (get_portal_alignment_transform PORTAL_ID_BACK PORTAL_ID_FRONT).w_axis_xyz := by
  have hcheck : check_camera_hull_boundary ⟨1, 1, -1⟩ sample_blueprint sample_instance =
      .Traverse 1 1 PORTAL_ID_FRONT := by
    norm_num [check_camera_hull_boundary, check_loop, signed_distance_to_side,
      sample_blueprint, sample_wall_side, sample_portal_side, sample_miswired_side,
      Vec3.dot, COLLISION_EPSILON, side_boundary_result, effective_config, sample_instance,
      List.getD, PORTAL_ID_FRONT]
    intro h
    cases h
  obtain ⟨scene', hupd, _, hw⟩ := traverse_update_spec sample_scene ⟨1, 1, -1⟩ 1
    sample_instance sample_blueprint 1 1 PORTAL_ID_FRONT sample_portal_side PORTAL_ID_BACK
    rfl rfl hcheck (by simp [sample_blueprint]) rfl (by simp [Matrix.one_apply])
    (by simp [Matrix.one_apply]) (by simp [Matrix.one_apply]) (by simp [Matrix.one_apply])
    w_axis_one
  refine ⟨scene'.active_camera_local_transform.w_axis_xyz, by rw [hupd]; rfl, ?_⟩
  rw [hw]
  have halign : get_portal_alignment_transform PORTAL_ID_BACK PORTAL_ID_FRONT =
      Mat4.from_translation ⟨0, 0, -3⟩ := rfl
  rw [halign, w_axis_from_translation, transform_vector3_one]
  intro h
  have hz := congrArg Vec3.z h
  simp [TRAVERSAL_PUSH_DISTANCE] at hz

/-! ### C9 — projection totality guards -/

/-- C9: `project_camera_space_to_screen_direct` returns `None` whenever
`p.z > -znear + 1e-6`, `p.z < -zfar`, or `-p.z < 1e-6`; whenever it returns a
point, the divisor satisfied `-p.z ≥ 1e-6`, so the division by `-p.z` is never
a division by zero. (Independent of the tangent function parameter.) -/
theorem c9_projection_guarded (tanQ : ℚ → ℚ) (cam : Camera) (p_cam : Point3)
    (screen_width screen_height : ℚ) :
    ((p_cam.z > -cam.znear + 1 / 1000000 ∨ p_cam.z < -cam.zfar ∨ -p_cam.z < 1 / 1000000) →
      project_camera_space_to_screen_direct tanQ cam p_cam screen_width screen_height = none) ∧
    (∀ q : Point2,
      project_camera_space_to_screen_direct tanQ cam p_cam screen_width screen_height = some q →
      1 / 1000000 ≤ -p_cam.z) := by
  constructor
  · intro h
    unfold project_camera_space_to_screen_direct
    rcases h with h | h | h
    · rw [if_pos h]
    · by_cases g1 : p_cam.z > -cam.znear + 1 / 1000000
      · rw [if_pos g1]
      · rw [if_neg g1, if_pos h]
    · by_cases g1 : p_cam.z > -cam.znear + 1 / 1000000
      · rw [if_pos g1]
      · rw [if_neg g1]
        by_cases g2 : p_cam.z < -cam.zfar
        · rw [if_pos g2]
        · rw [if_neg g2, if_pos h]
  · intro q hq
    unfold project_camera_space_to_screen_direct at hq
    by_cases g3 : -p_cam.z < 1 / 1000000
    · exfalso
      by_cases g1 : p_cam.z > -cam.znear + 1 / 1000000
      · rw [if_pos g1] at hq
        exact Option.noConfusion hq
      · rw [if_neg g1] at hq
        by_cases g2 : p_cam.z < -cam.zfar
        · rw [if_pos g2] at hq
          exact Option.noConfusion hq
        · rw [if_neg g2, if_pos g3] at hq
          exact Option.noConfusion hq
    · linarith [not_lt.mp g3]

/-- Witness for C9: a point with `z = 1` (behind the camera) is rejected. -/
theorem c9_witness :
    ((1 : ℚ) > -(1 / 10) + 1 / 1000000 ∨ (1 : ℚ) < -(100 : ℚ) ∨ -(1 : ℚ) < 1 / 1000000) ∧
    project_camera_space_to_screen_direct (fun _ => 1) ⟨2, 1 / 10, 100⟩ ⟨0, 0, 1⟩ 640 480 =
      none := by
  have hdisj : ((⟨0, 0, 1⟩ : Point3).z > -(⟨2, 1 / 10, 100⟩ : Camera).znear + 1 / 1000000 ∨
      (⟨0, 0, 1⟩ : Point3).z < -(⟨2, 1 / 10, 100⟩ : Camera).zfar ∨
      -(⟨0, 0, 1⟩ : Point3).z < 1 / 1000000) := Or.inl (by norm_num)
  exact ⟨Or.inl (by norm_num),
    (c9_projection_guarded (fun _ => 1) ⟨2, 1 / 10, 100⟩ ⟨0, 0, 1⟩ 640 480).1 hdisj⟩

end Engine3
